import Mathlib

/-
Verification of the ESLint configuration file (.eslintrc.js) of this repository.

The configuration is a single declarative object literal.  We embed it as a
Lean value: rule option values become a small JSON-like inductive type, and
the exported object becomes a structure whose fields follow the source keys in
order.  Fields that an override block may omit (parser, parserOptions,
plugins, the preset list) are Options, so presence and absence in the source
are recorded faithfully.  The parts of the external lint engine that the
claims mention (glob matching, override layering, module evaluation) are not
code of this repository; they are modelled from the specification text and
clearly marked as such.
-/

/-- A JSON-like value, as it appears on the right-hand side of a rule entry
or inside rule options in the configuration file. -/
inductive JsVal where
  | str (s : String)
  | num (n : Int)
  | bool (b : Bool)
  | arr (elems : List JsVal)
  | obj (fields : List (String × JsVal))
deriving Repr

mutual

/-- All string literals occurring anywhere inside a value. -/
def JsVal.stringsIn : JsVal → List String
  | .str s => [s]
  | .num _ => []
  | .bool _ => []
  | .arr l => stringsInList l
  | .obj l => stringsInFields l

/-- All string literals occurring anywhere inside a list of values. -/
def stringsInList : List JsVal → List String
  | [] => []
  | v :: vs => v.stringsIn ++ stringsInList vs

/-- All string literals (keys included) occurring anywhere inside a key/value
field list. -/
def stringsInFields : List (String × JsVal) → List String
  | [] => []
  | (k, v) :: vs => k :: (v.stringsIn ++ stringsInFields vs)

end

/-- Severity vocabulary of the external tool, per the glossary:
off / warn / error. -/
def isSeverityLevel (s : String) : Bool :=
  s == "off" || s == "warn" || s == "error"

/-- A rule entry value is well formed when it is a severity level string, or
an array whose first element is a severity level string (optionally followed
by rule-specific options). -/
def wellFormedRuleValue : JsVal → Bool
  | .str s => isSeverityLevel s
  | .arr (.str s :: _) => isSeverityLevel s
  | _ => false

/-- The severity level selected by a rule entry value, when the value is well
formed. -/
def severityOf : JsVal → Option String
  | .str s => some s
  | .arr (.str s :: _) => some s
  | _ => none

/-- First binding of a key in a rules mapping (the mappings are association
lists in source order). -/
def lookupRule : List (String × JsVal) → String → Option JsVal
  | [], _ => none
  | (k2, v) :: rest, k => if k2 == k then some v else lookupRule rest k

/-- One override block of the configuration.  Keys an override block may omit
are Options; the two rules-related keys every block of this file has are
plain fields. -/
structure Override where
  files : List String
  parser : Option String := none
  parserOptions : Option (List (String × JsVal)) := none
  plugins : Option (List String) := none
  «extends» : Option (List String) := none
  rules : List (String × JsVal)
deriving Repr

/-- The exported configuration object, with the top-level keys of the source
file in order. -/
structure Config where
  root : Bool
  ignorePatterns : List String
  env : List (String × Bool)
  «extends» : List String
  rules : List (String × JsVal)
  overrides : List Override
deriving Repr

/-- The first override block of the source file (files **/*.ts). -/
def tsOverride : Override where
  files := ["**/*.ts"]
  parser := some "@typescript-eslint/parser"
  parserOptions := some [("project", .str "./tsconfig.eslint.json")]
  plugins := some ["@typescript-eslint"]
  «extends» := some ["plugin:@typescript-eslint/recommended", "airbnb-typescript/base"]
  rules :=
    [ ("import/no-common-js",
        .arr [.str "error", .obj [("allowConditionalRequire", .bool false)]]),
      ("import/named", .str "off"),
      ("@typescript-eslint/strict-boolean-expressions",
        .arr [.str "error",
          .obj [("allowString", .bool false), ("allowNumber", .bool false),
            ("allowNullableObject", .bool false)]]),
      ("@typescript-eslint/consistent-type-definitions",
        .arr [.str "error", .str "interface"]),
      ("@typescript-eslint/explicit-member-accessibility", .str "error"),
      ("@typescript-eslint/consistent-type-assertions",
        .arr [.str "error",
          .obj [("assertionStyle", .str "as"),
            ("objectLiteralTypeAssertions", .str "allow-as-parameter")]]),
      ("@typescript-eslint/explicit-module-boundary-types",
        .arr [.str "error",
          .obj [("allowArgumentsExplicitlyTypedAsAny", .bool true)]]),
      ("jsdoc/no-types", .str "error") ]

/-- The second override block of the source file (files **/*.js and
**/*.ts); it has no parser, parserOptions, plugins or preset-list keys. -/
def jsTsOverride : Override where
  files := ["**/*.js", "**/*.ts"]
  rules :=
    [ ("max-len",
        .arr [.str "error", .num 120, .num 2,
          .obj [("ignoreUrls", .bool true), ("ignoreComments", .bool false),
            ("ignoreRegExpLiterals", .bool true), ("ignoreStrings", .bool true),
            ("ignoreTemplateLiterals", .bool true)]]),
      ("quotes",
        .arr [.str "error", .str "single",
          .obj [("avoidEscape", .bool true), ("allowTemplateLiterals", .bool false)]]),
      ("camelcase", .str "off"),
      ("no-underscore-dangle", .str "off"),
      ("@typescript-eslint/naming-convention",
        .arr [.str "error",
          .obj [("selector", .str "default"),
            ("format", .arr [.str "camelCase"])],
          .obj [("selector", .str "variable"),
            ("format", .arr [.str "camelCase", .str "PascalCase", .str "UPPER_CASE"])],
          .obj [("selector", .str "parameter"),
            ("format", .arr [.str "camelCase"]),
            ("leadingUnderscore", .str "allow")],
          .obj [("selector", .str "typeLike"),
            ("format", .arr [.str "PascalCase"])]]),
      ("import/no-cycle", .str "off"),
      ("import/no-internal-modules",
        .arr [.str "error", .obj [("allow", .arr [])]]) ]

/-- The object assigned to module.exports in the source file. -/
def eslintrc : Config where
  root := true
  ignorePatterns := ["/dist", "/coverage"]
  env := [("es2017", true), ("node", true)]
  «extends» :=
    ["eslint:recommended", "plugin:node/recommended", "airbnb-base",
      "plugin:jsdoc/recommended"]
  rules := [("no-tabs", .str "error"), ("no-sequences", .str "error")]
  overrides := [tsOverride, jsTsOverride]

/-- Decides whether the character list sfx is a suffix of the character list
l. -/
def listIsSfx (sfx l : List Char) : Bool :=
  sfx == l.drop (l.length - sfx.length)

/-- Modelled from the spec: the file-glob predicate of the external lint
engine, which is not part of this repository.  The spec only calls the files
entries file-glob predicates; the two glob forms the configuration uses start
with **/* and match every path ending with the remainder of the pattern, and
any other pattern is taken to match only the identical path. -/
def matchesGlob (pattern path : String) : Bool :=
  if pattern.data.take 4 == "**/*".data then
    listIsSfx (pattern.data.drop 4) path.data
  else
    pattern.data == path.data

/-- A path matches an override block when it matches one of the block's file
globs. -/
def matchesOverride (o : Override) (path : String) : Bool :=
  o.files.any (fun pat => matchesGlob pat path)

/-- Modelled from the spec: the external lint engine's override layering,
which is not part of this repository.  Override blocks apply in list order on
top of the top-level rules for files matching their glob, and later entries
win on conflicting keys.  The function returns the effective entry of one
rule identifier for one file path. -/
def effectiveRule (cfg : Config) (path k : String) : Option JsVal :=
  cfg.overrides.foldl
    (fun acc o =>
      if matchesOverride o path then
        match lookupRule o.rules k with
        | some v => some v
        | none => acc
      else acc)
    (lookupRule cfg.rules k)

/-- Ambient interpreter state a module body could read while being
evaluated (global bindings). -/
def ModuleState : Type := List (String × JsVal)

/-- Evaluation of the configuration module.  The module body is a single
assignment of an object literal built only from constants, so its evaluation
reads nothing from the ambient state. -/
def evalModule (_ : ModuleState) : Config := eslintrc

/-- The three rules mappings of the configuration: the top-level scope and
the scope of each override block, in order. -/
def allRuleMappings (cfg : Config) : List (List (String × JsVal)) :=
  cfg.rules :: cfg.overrides.map (fun o => o.rules)

/-- Keys of an association list are pairwise distinct. -/
def nodupKeys : List (String × JsVal) → Bool
  | [] => true
  | (k, _) :: rest => rest.all (fun e => e.1 != k) && nodupKeys rest

/-- Every string literal occurring anywhere in the configuration: ignore
globs, environment flag names, preset names, plugin names, parser names,
parser option values, file globs, rule identifiers and rule entry values. -/
def configStrings (cfg : Config) : List String :=
  cfg.ignorePatterns ++ cfg.env.map (fun e => e.1) ++ cfg.«extends» ++
    stringsInFields cfg.rules ++
    cfg.overrides.foldr
      (fun o acc =>
        o.files ++ o.parser.toList ++
          (match o.parserOptions with
            | some fs => stringsInFields fs
            | none => []) ++
          (match o.plugins with
            | some ps => ps
            | none => []) ++
          (match o.«extends» with
            | some es => es
            | none => []) ++
          stringsInFields o.rules ++ acc)
      []

/-- C1: for every file path matching the glob predicates of both override
blocks (so of more than one block), the effective rules mapping is the
top-level rules with the override blocks applied in declaration order: for
every rule identifier, the second block's entry wins when present, otherwise
the first block's entry, otherwise the top-level entry. -/
theorem override_precedence (path k : String)
    (h0 : matchesOverride tsOverride path = true)
    (h1 : matchesOverride jsTsOverride path = true) :
    effectiveRule eslintrc path k =
      (match lookupRule jsTsOverride.rules k with
        | some v => some v
        | none =>
          match lookupRule tsOverride.rules k with
          | some v => some v
          | none => lookupRule eslintrc.rules k) := by
  have e : eslintrc.overrides = [tsOverride, jsTsOverride] := rfl
  unfold effectiveRule
  rw [e]
  simp only [List.foldl_cons, List.foldl_nil, h0, h1, if_true]

/-- Witness for override_precedence at the path app.ts, which matches both
blocks, and the rule identifier quotes, an entry of the second block. -/
theorem override_precedence_witness :
    matchesOverride tsOverride "app.ts" = true ∧
    matchesOverride jsTsOverride "app.ts" = true ∧
    effectiveRule eslintrc "app.ts" "quotes" =
      some (.arr [.str "error", .str "single",
        .obj [("avoidEscape", .bool true), ("allowTemplateLiterals", .bool false)]]) :=
  ⟨rfl, rfl, (override_precedence "app.ts" "quotes" rfl rfl).trans rfl⟩

/-- C2: within each single scope level (the top-level rules mapping and the
rules mapping of each of the two override blocks), rule identifiers are
pairwise distinct, so no identifier occurs twice with conflicting
severities. -/
theorem rule_keys_nodup_per_scope :
    (allRuleMappings eslintrc).all nodupKeys = true := by decide

/-- C3: every entry of every rules mapping maps a rule identifier to a
severity level string, or to an array whose first element is a severity
level string optionally followed by rule-specific options. -/
theorem rules_well_formed :
    (allRuleMappings eslintrc).all
      (fun rs => rs.all (fun e => wellFormedRuleValue e.2)) = true := by decide

/-- C4: evaluating the configuration module is deterministic and reads
nothing from the ambient state: every evaluation yields the same constant
exported object. -/
theorem module_eval_deterministic :
    ∀ s t : ModuleState, evalModule s = eslintrc ∧ evalModule s = evalModule t :=
  fun _ _ => ⟨rfl, rfl⟩

/-- Witness for module_eval_deterministic at two distinct concrete ambient
states. -/
theorem module_eval_deterministic_witness :
    evalModule [] = eslintrc ∧
      evalModule [] = evalModule [("someGlobal", .bool true)] :=
  module_eval_deterministic [] [("someGlobal", .bool true)]

/-- C5: the configuration's root-scope flag is the boolean true. -/
theorem root_flag_true : eslintrc.root = true := rfl

/-- C6: the ignore-path globs are exactly /dist and /coverage. -/
theorem ignore_patterns_exact :
    eslintrc.ignorePatterns = ["/dist", "/coverage"] := rfl

/-- C7: exactly the two environment flags es2017 and node are enabled. -/
theorem env_flags_exact :
    eslintrc.env = [("es2017", true), ("node", true)] := rfl

/-- C8, counterexample: not every override block carries its own nested
preset list and tool-plugin list; the second block (files **/*.js and
**/*.ts) has neither key. -/
theorem not_every_override_has_preset_and_plugin_lists :
    ¬ (∀ o ∈ eslintrc.overrides, o.«extends».isSome ∧ o.plugins.isSome) := by
  decide

/-- C8, amended: the top level extends the four presets in order; every
override block carries its own rule mapping; the first block (files
**/*.ts) additionally carries its own nested preset list (the TypeScript
plugin's recommended presets, then the AirBnB TypeScript base) and its
tool-plugin list, while the second block carries neither a preset list nor a
plugin list. -/
theorem extends_and_override_structure :
    eslintrc.«extends» =
        ["eslint:recommended", "plugin:node/recommended", "airbnb-base",
          "plugin:jsdoc/recommended"] ∧
      eslintrc.overrides = [tsOverride, jsTsOverride] ∧
      (eslintrc.overrides.all (fun o => !o.rules.isEmpty)) = true ∧
      tsOverride.«extends» =
        some ["plugin:@typescript-eslint/recommended", "airbnb-typescript/base"] ∧
      tsOverride.plugins = some ["@typescript-eslint"] ∧
      jsTsOverride.«extends» = none ∧
      jsTsOverride.plugins = none :=
  ⟨rfl, rfl, rfl, rfl, rfl, rfl, rfl⟩

/-- C10: every rule entry at every scope level selects the severity error or
the severity off, and the severity warn occurs nowhere among the string
literals of the configuration. -/
theorem severities_error_or_off_no_warn :
    ((allRuleMappings eslintrc).all
        (fun rs => rs.all
          (fun e => severityOf e.2 == some "error" || severityOf e.2 == some "off"))
      = true) ∧
      (configStrings eslintrc).all (fun s => s != "warn") = true := by
  refine ⟨by decide, ?_⟩
  simp only [configStrings, eslintrc, tsOverride, jsTsOverride, stringsInFields,
    JsVal.stringsIn, stringsInList, List.foldr]
  decide
